import Mathlib

/-!
Verification development for the two movie-GraphRAG scripts
(`text2cypher_rag.py` and `vector_cypher_rag.py`).

The scripts are thin wiring around a graph database driver, an embedding
service and LLM clients.  The parts that live in the repository — the schema
text, the example set, the retrieval Cypher template, the LLM configuration,
and the straight-line control flow of each script — are embedded directly
from the source.  The behavior of the external orchestration library and
services (driver construction, `GraphRAG.search`, the vector index search,
LLM completion) is not in the repository; where a claim depends on it, the
corresponding definition is modelled from the spec and says so in its doc
comment.
-/

set_option linter.unusedVariables false

/-! ### Graph data model for the vector-plus-traversal retrieval query

The retrieval Cypher template in `vector_cypher_rag.py` (lines 57-67) runs
over candidate nodes produced by the vector index, each paired with a
similarity `score`.  We model the relevant slice of the movie graph: movie
nodes with optional `title`/`plot` properties, `RATED` relationships
carrying an integer rating, `IN_GENRE` edges to genre names and `ACTED_IN`
edges from actor names. -/

structure Node where
  id : Nat
  title : Option String
  plot : Option String
deriving DecidableEq

structure Db where
  rated : List (Nat × Int)
  inGenre : List (Nat × String)
  actedIn : List (Nat × String)
deriving DecidableEq

/-- Ratings of the `RATED` relationships pointing at node `nid`
(the `MATCH (node) <-[r:RATED]-()` pattern). -/
def ratingsOf (db : Db) (nid : Nat) : List Int :=
  (db.rated.filter fun p => p.1 == nid).map Prod.snd

/-- Genre names collected by `collect \x7b MATCH (node)-[:IN_GENRE]->(g) RETURN g.name \x7d`. -/
def genresOf (db : Db) (nid : Nat) : List String :=
  (db.inGenre.filter fun p => p.1 == nid).map Prod.snd

/-- Actor names collected by `collect \x7b MATCH (node)<-[:ACTED_IN]->(a) RETURN a.name \x7d`. -/
def actorsOf (db : Db) (nid : Nat) : List String :=
  (db.actedIn.filter fun p => p.1 == nid).map Prod.snd

/-- One context item returned by the vector-plus-traversal retriever: the
row shape of the `RETURN` clause of the retrieval query.  Cypher values are
nullable, so scalar fields are `Option`. -/
structure ContextItem where
  title : Option String
  plot : Option String
  similarityScore : Option Rat
  genres : List String
  actors : List String
  userRating : Option Rat
deriving DecidableEq

/-- Row produced by the retrieval query for one index candidate `(node, score)`.
The leading `MATCH (node) <-[r:RATED]-()` requires at least one `RATED`
relationship: a candidate with none produces no row (`none`).  Otherwise
`avg(r.rating)` aggregates the (necessarily nonempty) multiset of ratings,
so `userRating` is non-null, and the index similarity `score` is carried
through as `similarityScore`. -/
def mkItem (db : Db) (c : Node × Rat) : Option ContextItem :=
  let rs := ratingsOf db c.1.id
  if rs.isEmpty then none
  else some
    { title := c.1.title
      plot := c.1.plot
      similarityScore := some c.2
      genres := genresOf db c.1.id
      actors := actorsOf db c.1.id
      userRating := some ((rs.map fun r => (r : Rat)).sum / (rs.length : Rat)) }

/-- Sort key for `ORDER BY userRating DESC` (rows always have a non-null
`userRating`, see `mkItem`). -/
def ratingKey (i : ContextItem) : Rat := i.userRating.getD 0

/-- The ordering relation of `ORDER BY userRating DESC`: `a` may precede `b`
when the rating of `b` is at most the rating of `a`. -/
def ratingGE (a b : ContextItem) : Prop := ratingKey b ≤ ratingKey a

instance : DecidableRel ratingGE :=
  fun a b => inferInstanceAs (Decidable (ratingKey b ≤ ratingKey a))

instance : IsTotal ContextItem ratingGE :=
  ⟨fun a b => le_total (ratingKey b) (ratingKey a)⟩

instance : IsTrans ContextItem ratingGE :=
  ⟨fun _ _ _ h1 h2 => le_trans h2 h1⟩

/-- Semantics of the retrieval Cypher template of `vector_cypher_rag.py`
applied to the candidate rows `(node, score)` delivered by the vector index:
per-candidate row construction (`mkItem`) followed by
`ORDER BY userRating DESC`. -/
def applyRetrievalQuery (db : Db) (cands : List (Node × Rat)) : List ContextItem :=
  List.insertionSort ratingGE (cands.filterMap (mkItem db))

/-- The retrieval query template, verbatim from `vector_cypher_rag.py`
lines 57-67 (a Python triple-quoted string). -/
def retrieval_query : String :=
  "\nMATCH (node) <-[r:RATED]-()                 // Acha os relacionamentos de avaliação\nRETURN\n    node.title AS title,                    // Extrai a propriedade título\n    node.plot AS plot,                      // Extrai a sinopse\n    score AS similarityScore,               // O quão parecido o filme é com a pergunta\n    collect \x7b MATCH (node)-[:IN_GENRE]->(g) RETURN g.name \x7d as genres, // Navega até Gêneros\n    collect \x7b MATCH (node)<-[:ACTED_IN]->(a) RETURN a.name \x7d as actors, // Navega até Atores\n    avg(r.rating) as userRating             // Calcula a média das notas no banco\nORDER BY userRating DESC                    // Garante que os melhores venham primeiro\n"

/-- Configuration state of the `VectorCypherRetriever` object as constructed
in the script: the index name and the retrieval query template. -/
structure VectorCypherRetriever where
  index_name : String
  retrieval_query : String
deriving DecidableEq

/-- The retriever instance of `vector_cypher_rag.py` lines 75-80. -/
def retriever : VectorCypherRetriever :=
  { index_name := "moviePlots", retrieval_query := retrieval_query }

/-- Record of one search call: which template string was executed against
the database, and the retriever state after the call. -/
structure SearchCall where
  executedTemplate : String
  retrieverAfter : VectorCypherRetriever
deriving DecidableEq

/-- Modelled from the spec: the library search on a `VectorCypherRetriever`
"executes the retrieval query template with the candidate substituted into
the placeholder" — only the matched-node placeholder is bound at execution
time; the stored template string is read, never regenerated or mutated. -/
def VectorCypherRetriever.runSearch (r : VectorCypherRetriever) (q : String) : SearchCall :=
  { executedTemplate := r.retrieval_query, retrieverAfter := r }

/-- Run a sequence of search calls, threading the retriever state, and
collect the executed template of every call. -/
def runSearches (r : VectorCypherRetriever) (qs : List String) : List String × VectorCypherRetriever :=
  match qs with
  | [] => ([], r)
  | q :: t =>
    let call := r.runSearch q
    let rest := runSearches call.retrieverAfter t
    (call.executedTemplate :: rest.1, rest.2)

/-- Modelled from the spec: the nearest-neighbor search against the named
vector index is "bounded by the result-count limit" — it yields at most
`top_k` candidate nodes with similarity scores.  The index is abstracted as
the (already query-ranked) candidate list for the given query embedding. -/
def vectorIndexSearch (index : List (Node × Rat)) (top_k : Nat) : List (Node × Rat) :=
  index.take top_k

/-- Full search of the vector-plus-traversal retriever: vector index lookup
bounded by `top_k`, then the retrieval query over the candidates. -/
def vcRetrieverSearch (db : Db) (index : List (Node × Rat)) (query_text : String)
    (top_k : Nat) : List ContextItem :=
  applyRetrievalQuery db (vectorIndexSearch index top_k)

/-! ### Orchestrator (`GraphRAG`) and LLM models

The `GraphRAG` class and the retriever/LLM objects come from the
`neo4j_graphrag` library, which is not part of the repository; their
contracts are modelled from the spec (sections 4.2-4.4). -/

/-- Result of one retriever invocation: context items plus optional
generator metadata (the generated Cypher string, for the translation
strategy). -/
structure RetrieverResult (α : Type) where
  items : List α
  metadata : Option String
deriving DecidableEq

/-- Modelled from the spec: the single retriever capability the orchestrator
depends on — "given a query and a limit, return ordered context items with
metadata". -/
structure Retriever (α : Type) where
  search : String → Nat → RetrieverResult α

/-- Response of the orchestrator: final answer text plus the optional raw
retriever result. -/
structure RagResponse (α : Type) where
  answer : String
  retriever_result : Option (RetrieverResult α)
deriving DecidableEq

/-- Modelled from the spec: the orchestrator holds a retriever instance and
an answer-synthesis model (abstracted as a function from the question and
the retrieved context to the answer text). -/
structure GraphRAG (α : Type) where
  retriever : Retriever α
  llm : String → List α → String

/-- Modelled from the spec (section 4.4): `GraphRAG.search` invokes the
retriever with the query and the `top_k` bound, synthesizes the answer from
the question and the context, and attaches the raw retriever result exactly
when `return_context` is enabled. -/
def GraphRAG.search {α : Type} (rag : GraphRAG α) (query_text : String) (top_k : Nat)
    (return_context : Bool) : RagResponse α :=
  let rr := rag.retriever.search query_text top_k
  { answer := rag.llm query_text rr.items
    retriever_result := if return_context then some rr else none }

/-- The field names present on a response value: `answer` always, and
`retriever_result` when context was attached.  This is the observable
response shape shared by both pipelines. -/
def responseFields {α : Type} (resp : RagResponse α) : List String :=
  "answer" :: (match resp.retriever_result with
    | some _ => ["retriever_result"]
    | none => [])

/-- Configuration of an `OpenAILLM` client as constructed in the scripts:
the model name and the optional `temperature` entry of `model_params`. -/
structure OpenAILLM where
  model_name : String
  temperature : Option Int
deriving DecidableEq

/-- The query-generation model of `text2cypher_rag.py` lines 19-22:
`gpt-4o` with `model_params=\x7b"temperature": 0\x7d`. -/
def t2c_llm : OpenAILLM :=
  { model_name := "gpt-4o", temperature := some 0 }

/-- Modelled from the spec: a zero-temperature generation configuration is
deterministic — the completion is a function of the prompt alone, while any
nonzero/unset temperature may additionally depend on the sampling seed.
`complete` is the deterministic completion function and `sample` the seeded
sampler; both abstract the external language model. -/
def llmGenerate (llm : OpenAILLM) (complete : String → String)
    (sample : String → Nat → String) (prompt : String) (seed : Nat) : String :=
  if llm.temperature = some 0 then complete prompt else sample prompt seed

/-- The schema description, verbatim from `text2cypher_rag.py` lines 32-48. -/
def neo4j_schema : String :=
  "\nNode properties:\nPerson \x7bname: STRING, born: INTEGER\x7d\nMovie \x7btagline: STRING, title: STRING, released: INTEGER\x7d\nGenre \x7bname: STRING\x7d\nUser \x7bname: STRING\x7d\n\nRelationship properties:\nACTED_IN \x7brole: STRING\x7d\nRATED \x7brating: INTEGER\x7d\n\nThe relationships:\n(:Person)-[:ACTED_IN]->(:Movie)\n(:Person)-[:DIRECTED]->(:Movie)\n(:User)-[:RATED]->(:Movie)\n(:Movie)-[:IN_GENRE]->(:Genre)\n"

/-- The few-shot example set, verbatim from `text2cypher_rag.py` lines 57-59. -/
def examples : List String :=
  ["USER INPUT: \x27Get user ratings for a movie?\x27 QUERY: MATCH (u:User)-[r:RATED]->(m:Movie) WHERE m.title = \x27Movie Title\x27 RETURN r.rating"]

/-- Modelled from the spec (section 4.2): the translation retriever
concatenates "the natural-language question with the schema description and
examples into a single prompt". -/
def t2cPrompt (question : String) : String :=
  question ++ "\n" ++ neo4j_schema ++ "\n" ++ String.intercalate "\n" examples

/-- Query generation as configured in `text2cypher_rag.py`: the fixed
`t2c_llm` client applied to the prompt built from the fixed schema and
example set. -/
def generateCypherQuery (complete : String → String) (sample : String → Nat → String)
    (question : String) (seed : Nat) : String :=
  llmGenerate t2c_llm complete sample (t2cPrompt question) seed

/-- A raw database result row of the translation retriever: field name to
value text. -/
def CypherRow : Type := List (String × String)

instance : DecidableEq CypherRow := inferInstanceAs (DecidableEq (List (String × String)))

/-- Modelled from the spec (section 4.2): the translation retriever
generates a Cypher string from the question, executes it verbatim against
the database (`exec`), and returns the result rows as context items plus
the generated query as metadata. -/
def text2cypherRetriever (gen : String → String) (exec : String → List CypherRow) :
    Retriever CypherRow :=
  { search := fun q _k => { items := exec (gen q), metadata := some (gen q) } }

/-- The vector-plus-traversal retriever wrapped in the orchestrator-level
interface: its context items are the rows of `vcRetrieverSearch`. -/
def vcRetriever (db : Db) (index : List (Node × Rat)) : Retriever ContextItem :=
  { search := fun q k => { items := vcRetrieverSearch db index q k, metadata := none } }

/-! ### Connection component, environment configuration and script control flow -/

/-- State of a graph database driver (the connection handle). -/
structure Neo4jDriver where
  uri : String
  user : String
  password : String
  isOpen : Bool
deriving DecidableEq

/-- Modelled from the spec (sections 2 and 8): `driver.close` releases the
transport pool and returns normally — teardown is "safe to invoke ...
without raising", and closing an already-closed driver is a no-op. -/
def Neo4jDriver.close (d : Neo4jDriver) : Except String Neo4jDriver :=
  Except.ok { d with isOpen := false }

/-- The process environment slice the scripts read at start (`os.getenv`
returns `none` for an unset variable). -/
structure Env where
  NEO4J_URI : Option String
  NEO4J_USERNAME : Option String
  NEO4J_PASSWORD : Option String
deriving DecidableEq

/-- Modelled from the spec (section 6): driver construction from the
environment-provided address and credentials; "absence is fatal", so a
missing value yields an error instead of a driver. -/
def graphDatabaseDriver (uri user password : Option String) : Except String Neo4jDriver :=
  match uri, user, password with
  | some u, some n, some p => Except.ok { uri := u, user := n, password := p, isOpen := true }
  | _, _, _ => Except.error "missing NEO4J connection configuration"

/-- Observable trace of one script run: whether a retrieval was attempted,
whether the answer was printed, whether `driver.close()` was reached, and
the uncaught error that terminated the run, if any. -/
structure RunTrace where
  retrievalAttempted : Bool
  answerPrinted : Bool
  closeInvoked : Bool
  fatalError : Option String
deriving DecidableEq

/-- The straight-line control flow shared by both scripts (there is no
`try`/`finally` in either): build the driver from the environment, run
`rag.search` (whose outcome, success or uncaught exception, is the
`searchResult` argument), print the results, then call `driver.close()`.
An uncaught exception terminates the process at that point and no later
statement runs; the `print` calls themselves cannot fail in this model. -/
def runScript {α : Type} (env : Env) (searchResult : Except String (RagResponse α)) : RunTrace :=
  match graphDatabaseDriver env.NEO4J_URI env.NEO4J_USERNAME env.NEO4J_PASSWORD with
  | Except.error e =>
    { retrievalAttempted := false, answerPrinted := false, closeInvoked := false,
      fatalError := some e }
  | Except.ok _d =>
    match searchResult with
    | Except.error e =>
      { retrievalAttempted := true, answerPrinted := false, closeInvoked := false,
        fatalError := some e }
    | Except.ok _resp =>
      { retrievalAttempted := true, answerPrinted := true, closeInvoked := true,
        fatalError := none }

/-! ### Scenario A constants -/

/-- The question of `text2cypher_rag.py` line 76. -/
def babeQuestion : String := "What year was the movie Babe released?"

/-- Modelled from the spec (Scenario A) and the comment in the script itself
(line 80): the Cypher the query-generation model emits for the Babe
question under the configured schema and examples. -/
def babeGeneratedCypher : String :=
  "MATCH (m:Movie \x7btitle: \x27Babe\x27\x7d) RETURN m.released"

/-- Modelled from the spec: the completion behavior of the zero-temperature
generation model on Scenario A — the prompt built from the Babe question
yields `babeGeneratedCypher`. -/
def scenarioAComplete : String → String := fun prompt =>
  if prompt = t2cPrompt babeQuestion then babeGeneratedCypher else ""

/-- Substring test on the underlying character lists (used to state the
literal-token-match invariant of Scenario A). -/
def strContainsAux (pat : List Char) : List Char → Bool
  | [] => pat.isEmpty
  | c :: t => pat.isPrefixOf (c :: t) || strContainsAux pat t

/-- Whether `pat` occurs verbatim in `s`. -/
def strContains (s pat : String) : Bool := strContainsAux pat.data s.data

/-! ### Helper lemmas -/

/-- Candidates whose node has no incoming `RATED` relationship contribute no
row; dropping them first does not change the retrieval result. -/
theorem filterMap_mkItem_filter (db : Db) (cands : List (Node × Rat)) :
    cands.filterMap (mkItem db)
      = (cands.filter fun c => !(ratingsOf db c.1.id).isEmpty).filterMap (mkItem db) := by
  induction cands with
  | nil => rfl
  | cons c t ih =>
    cases hEmpty : (ratingsOf db c.1.id).isEmpty <;>
      simp [List.filterMap_cons, List.filter_cons, hEmpty, mkItem, ih]

/-- Search calls leave the retriever state unchanged and always execute the
stored template. -/
theorem runSearches_preserves (r : VectorCypherRetriever) (qs : List String) :
    (runSearches r qs).2 = r ∧ ∀ tpl ∈ (runSearches r qs).1, tpl = r.retrieval_query := by
  induction qs with
  | nil => exact ⟨rfl, by simp [runSearches]⟩
  | cons q t ih =>
    constructor
    · simpa [runSearches, VectorCypherRetriever.runSearch] using ih.1
    · intro tpl h
      simp only [runSearches, VectorCypherRetriever.runSearch, List.mem_cons] at h
      rcases h with h | h
      · exact h
      · exact ih.2 tpl h

/-! ### Claim theorems -/

/-- C1: for the vector-plus-traversal retriever invoked through the
orchestrator with `top_k = 5` on the Scenario B query, the returned context
items number at most 5, every item carries a non-null similarity score and
a non-null aggregated user rating, and the items are ordered descending by
that aggregated rating. -/
theorem vector_traversal_scenarioB_contract (db : Db) (index : List (Node × Rat))
    (synth : String → List ContextItem → String) :
    ∃ rr, (GraphRAG.search { retriever := vcRetriever db index, llm := synth }
        "Find the highest rated action movie about travelling to other planets"
        5 true).retriever_result = some rr
      ∧ rr.items.length ≤ 5
      ∧ (∀ i ∈ rr.items, i.similarityScore.isSome = true ∧ i.userRating.isSome = true)
      ∧ List.Sorted ratingGE rr.items := by
  refine ⟨⟨vcRetrieverSearch db index
      "Find the highest rated action movie about travelling to other planets" 5, none⟩,
      rfl, ?_, ?_, ?_⟩
  · unfold vcRetrieverSearch applyRetrievalQuery vectorIndexSearch
    rw [List.length_insertionSort]
    exact le_trans (List.length_filterMap_le _ _) (List.length_take_le 5 index)
  · intro i hi
    unfold vcRetrieverSearch applyRetrievalQuery at hi
    rw [List.mem_insertionSort] at hi
    obtain ⟨c, hc, hmk⟩ := List.mem_filterMap.mp hi
    cases hEmpty : (ratingsOf db c.1.id).isEmpty <;> simp [mkItem, hEmpty] at hmk
    subst hmk
    exact ⟨rfl, rfl⟩
  · exact List.sorted_insertionSort _ _

/-- C2: the orchestrator response contains the raw retriever result if and
only if `return_context` was enabled in that call, and for the translation
strategy the attached result carries the generated-query metadata. -/
theorem orchestrator_return_context_iff :
    (∀ (α : Type) (rag : GraphRAG α) (q : String) (k : Nat) (rc : Bool),
        (rag.search q k rc).retriever_result.isSome = rc)
    ∧ (∀ (gen : String → String) (exec : String → List CypherRow)
        (synth : String → List CypherRow → String) (q : String) (k : Nat),
        (GraphRAG.search { retriever := text2cypherRetriever gen exec, llm := synth }
            q k true).retriever_result
          = some { items := exec (gen q), metadata := some (gen q) }) := by
  constructor
  · intro α rag q k rc
    cases rc <;> simp [GraphRAG.search]
  · intro gen exec synth q k
    rfl

/-- C3: with the schema, examples and the zero-temperature `t2c_llm`
configuration fixed as in the translation script, two runs of query
generation on the same question produce the same generated query string,
whatever the sampling seeds were. -/
theorem zero_temperature_two_run_determinism
    (complete : String → String) (sample : String → Nat → String)
    (question : String) (seed1 seed2 : Nat) :
    generateCypherQuery complete sample question seed1
      = generateCypherQuery complete sample question seed2 := by
  simp [generateCypherQuery, llmGenerate, t2c_llm]

/-- C4: `driver.close` succeeds (returns `ok`, never an error) on any driver
state, and closing the resulting driver again is a no-op returning the same
state — teardown is safe once and idempotent. -/
theorem driver_close_safe_and_idempotent (d : Neo4jDriver) :
    ∃ d2 : Neo4jDriver, d.close = Except.ok d2 ∧ d2.close = Except.ok d2 :=
  ⟨{ d with isOpen := false }, rfl, rfl⟩

/-- C5: the retrieval query template of the vector-plus-traversal retriever
equals the construction-time template, and after any sequence of search
calls the retriever state is unchanged and every call executed exactly that
template string. -/
theorem retrieval_query_fixed_under_search (qs : List String) :
    retriever.retrieval_query = retrieval_query
    ∧ (runSearches retriever qs).2 = retriever
    ∧ ∀ tpl ∈ (runSearches retriever qs).1, tpl = retrieval_query :=
  ⟨rfl, (runSearches_preserves retriever qs).1,
    fun tpl h => (runSearches_preserves retriever qs).2 tpl h⟩

/-- C6: the same `GraphRAG.search` invocation (query text, `top_k`,
`return_context`) is valid for both retriever variants and the responses
expose the same fields. -/
theorem orchestrator_signature_substitutable
    (db : Db) (index : List (Node × Rat))
    (gen : String → String) (exec : String → List CypherRow)
    (synthT : String → List CypherRow → String)
    (synthV : String → List ContextItem → String)
    (q : String) (k : Nat) (rc : Bool) :
    responseFields (GraphRAG.search { retriever := text2cypherRetriever gen exec, llm := synthT }
        q k rc)
      = responseFields (GraphRAG.search { retriever := vcRetriever db index, llm := synthV }
        q k rc) := by
  cases rc <;> rfl

/-- C7: if any of the three connection environment variables is unset, the
script run terminates with an error before any retrieval is attempted. -/
theorem missing_env_config_is_fatal {α : Type} (env : Env)
    (searchResult : Except String (RagResponse α))
    (h : env.NEO4J_URI = none ∨ env.NEO4J_USERNAME = none ∨ env.NEO4J_PASSWORD = none) :
    (runScript env searchResult).retrievalAttempted = false
    ∧ (runScript env searchResult).fatalError.isSome = true := by
  obtain ⟨u, n, p⟩ := env
  simp only at h
  rcases h with h | h | h
  · subst h; cases n <;> cases p <;> exact ⟨rfl, rfl⟩
  · subst h; cases u <;> cases p <;> exact ⟨rfl, rfl⟩
  · subst h; cases u <;> cases n <;> exact ⟨rfl, rfl⟩

/-- Witness for C7 at a concrete environment with the address unset. -/
theorem missing_env_config_is_fatal_witness :
    (runScript { NEO4J_URI := none, NEO4J_USERNAME := some "neo4j", NEO4J_PASSWORD := some "pw" }
        (Except.ok ({ answer := "", retriever_result := none } : RagResponse ContextItem))).retrievalAttempted = false
    ∧ (runScript { NEO4J_URI := none, NEO4J_USERNAME := some "neo4j", NEO4J_PASSWORD := some "pw" }
        (Except.ok ({ answer := "", retriever_result := none } : RagResponse ContextItem))).fatalError.isSome = true :=
  missing_env_config_is_fatal _ _ (Or.inl rfl)

/-- C8: on the Babe question the configured zero-temperature generation
yields the Scenario A query, and the schema field tokens it references
(`title`, `released`, label `Movie`) occur verbatim in the schema
description of the script. -/
theorem scenarioA_babe_query_token_match :
    (∀ (sample : String → Nat → String) (seed : Nat),
        generateCypherQuery scenarioAComplete sample babeQuestion seed = babeGeneratedCypher)
    ∧ strContains babeGeneratedCypher "title" = true
    ∧ strContains babeGeneratedCypher "released" = true
    ∧ strContains babeGeneratedCypher "Movie" = true
    ∧ strContains neo4j_schema "title" = true
    ∧ strContains neo4j_schema "released" = true
    ∧ strContains neo4j_schema "Movie" = true := by
  refine ⟨?_, ?_, ?_, ?_, ?_, ?_, ?_⟩
  · intro sample seed
    simp [generateCypherQuery, llmGenerate, t2c_llm, scenarioAComplete]
  all_goals decide

/-- C9: a candidate without an incoming `RATED` relationship yields no
context item (dropping such candidates leaves the result unchanged), and
concretely one unrated candidate with `top_k = 1` gives one index candidate
but an empty result. -/
theorem unrated_candidates_yield_no_items :
    (∀ (db : Db) (cands : List (Node × Rat)),
        applyRetrievalQuery db cands
          = applyRetrievalQuery db (cands.filter fun c => !(ratingsOf db c.1.id).isEmpty))
    ∧ vcRetrieverSearch { rated := [], inGenre := [], actedIn := [] }
        [(⟨0, some "Solaris", some "space travel"⟩, (9 : Rat) / 10)] "q" 1 = []
    ∧ (vectorIndexSearch [((⟨0, some "Solaris", some "space travel"⟩ : Node), (9 : Rat) / 10)] 1).length = 1 := by
  refine ⟨?_, rfl, rfl⟩
  intro db cands
  unfold applyRetrievalQuery
  rw [filterMap_mkItem_filter]

/-- C10: `driver.close()` runs exactly when driver construction and the
orchestrated search both succeeded, i.e. exactly in the runs with no
uncaught error; on any exception during retrieval or synthesis the process
terminates without invoking teardown. -/
theorem close_invoked_iff_all_steps_ok {α : Type} (env : Env)
    (searchResult : Except String (RagResponse α)) :
    (runScript env searchResult).closeInvoked
      = ((graphDatabaseDriver env.NEO4J_URI env.NEO4J_USERNAME env.NEO4J_PASSWORD).isOk
          && searchResult.isOk)
    ∧ ((runScript env searchResult).closeInvoked = true
        ↔ (runScript env searchResult).fatalError = none) := by
  obtain ⟨u, n, p⟩ := env
  unfold runScript
  cases hd : graphDatabaseDriver u n p <;> cases searchResult <;>
    simp [Except.isOk, Except.toBool]
